import Mathlib

/-!
# Verification of the contacts-management web API (14-Web-HW)

Shallow embedding of the authentication/session core and the contacts
repository of the FastAPI application, together with proofs of the
specification claims.

Embedding conventions:
* The persistent store (PostgreSQL via SQLAlchemy `AsyncSession`) is a
  Lean list of records; `scalar_one_or_none` over a `filter_by` query is
  `List.find?` of the corresponding predicate; in-place mutation of a
  fetched ORM object followed by `commit` is a keyed functional update.
* Each HTTP route handler becomes a pure function returning the new
  store state together with `Except err result`; raising `HTTPException`
  is the `.error` case.  A commit that happens before a raise is
  reflected in the returned state (state changes survive a failure, as
  they do in the program).
* `services/auth.py` (the `auth_service` token codec, password hasher
  and Redis identity cache client) is not part of the sources available
  here; those pieces are modelled from the specification, each marked
  `Modelled from the spec:` in its doc comment.  Route-handler logic is
  translated from `src/routes/*.py` and `src/repository/*.py` verbatim.
* Wall-clock time is an explicit `Nat` parameter (`now`); the JWT
  signature is abstracted away by working with structured token values,
  so every token value in the model is well-signed (forgery is outside
  the model), while expiry and the purpose/scope marker are explicit.
-/

namespace ContactsApp

/-! ## Token codec (modelled from the spec, §4.2) -/

/-- Modelled from the spec: the three token kinds of the Token Codec
(`services/auth.py` is absent from the sources): access, refresh and
email-verification, distinguished by a purpose/scope marker carried in
the payload. -/
inductive Purpose where
  | access
  | refresh
  | emailVerify
deriving DecidableEq, Repr

/-- Modelled from the spec: a signed token payload — subject (email),
purpose marker, issued-at and expires-at instants.  The signature is
implicit: every `Token` value is a well-signed token. -/
structure Token where
  sub : String
  purpose : Purpose
  iat : Nat
  exp : Nat
deriving DecidableEq, Repr

/-- Modelled from the spec: decode failure reasons — purpose/scope
mismatch (`INVALID_SCOPE_FOR_TOKEN`) and expiry. -/
inductive TokenErr where
  | invalidScope
  | expired
deriving DecidableEq, Repr

/-- Modelled from the spec: `issue(subject, purpose, ttl) -> token`. -/
def issueToken (sub : String) (p : Purpose) (now ttl : Nat) : Token :=
  { sub := sub, purpose := p, iat := now, exp := now + ttl }

/-- Modelled from the spec: `decode(token, expected_purpose) -> subject`,
failing when the purpose marker mismatches or the token is expired. -/
def decodeToken (t : Token) (expected : Purpose) (now : Nat) :
    Except TokenErr String :=
  if t.purpose ≠ expected then .error .invalidScope
  else if t.exp ≤ now then .error .expired
  else .ok t.sub

/-- Modelled from the spec: access-token lifetime (~15 minutes), in
seconds. -/
def ACCESS_TTL : Nat := 900

/-- Modelled from the spec: refresh-token lifetime (~7 days), in
seconds. -/
def REFRESH_TTL : Nat := 604800

/-- Modelled from the spec: email-verification-token lifetime
(~24 hours), in seconds. -/
def EMAIL_TTL : Nat := 86400

/-! ## Credential hasher (modelled from the spec, §4.1) -/

/-- Modelled from the spec: `hash(plaintext) -> hash_string`
(`auth_service.get_password_hash`; bcrypt in the program).  The salt and
cost parameters are abstracted; what matters is that verification is by
recomputation, with no side channel. -/
def get_password_hash (plaintext : String) : String :=
  "bcrypt$" ++ plaintext

/-- Modelled from the spec: `verify(plaintext, hash_string) -> bool`
(`auth_service.verify_password`); returns false on mismatch, never
throws. -/
def verify_password (plaintext hashed : String) : Bool :=
  hashed = get_password_hash plaintext

/-! ## Data model (`src/entity/models.py`) -/

/-- Enum `Role` from `src/entity/models.py`. -/
inductive Role where
  | admin
  | moderator
  | user
  | guest
deriving DecidableEq, Repr

/-- ORM model `User` from `src/entity/models.py` (timestamps omitted;
they are never read by the code under study).  `refresh_token` is the
nullable mirrored last-issued refresh token; `confirmed` defaults to
false. -/
structure User where
  id : Nat
  username : String
  email : String
  password : String
  avatar : Option String
  refresh_token : Option Token
  role : Role
  confirmed : Bool
deriving DecidableEq, Repr

/-- The users table: the persistent store restricted to `User` rows. -/
abbrev UserDB := List User

/-! ## User repository (`src/repository/users.py`) -/

/-- Repository function `get_user_by_email`: `select(User).filter_by(email=email)` +
`scalar_one_or_none`. -/
def get_user_by_email (email : String) (db : UserDB) : Option User :=
  db.find? (fun u => u.email = email)

/-- Repository function `update_token(user, token, db)`: sets `user.refresh_token = token`
and commits.  The mutation of the fetched ORM object is modelled as a
functional update of the row(s) with that user's email (the key by
which the object was fetched; emails are unique in reachable states). -/
def update_token (user : User) (token : Option Token) (db : UserDB) : UserDB :=
  db.map (fun v => if v.email = user.email then { v with refresh_token := token } else v)

/-- Repository function `confirmed_email(email, db)` from `src/repository/users.py`: fetches
the user by email and sets `confirmed = True`.  (The route has already
checked existence; on an absent user the program would dereference
`None`.) -/
def confirmed_email_repo (email : String) (db : UserDB) : UserDB :=
  db.map (fun v => if v.email = email then { v with confirmed := true } else v)

/-- Repository function `update_avatar_url(email, url, db)`: fetches the user by email, sets
`avatar = url`, commits, refreshes and returns the user.  `none` models
the route-unreachable case where the user is absent (the program would
dereference `None`). -/
def update_avatar_url (email : String) (url : Option String) (db : UserDB) :
    UserDB × Option User :=
  match get_user_by_email email db with
  | none => (db, none)
  | some u =>
      let u' := { u with avatar := url }
      (db.map (fun v => if v.email = email then { v with avatar := url } else v), some u')

/-! ## Auth routes (`src/routes/auth.py`) -/

/-- The `{"access_token": ..., "refresh_token": ..., "token_type": "bearer"}`
response body (`TokenSchema`). -/
structure TokenPair where
  access_token : Token
  refresh_token : Token
deriving DecidableEq, Repr

/-- Failure modes of the `login` route: the three distinct
401-Unauthorized details it can raise (`INVALID_EMAIL`,
`EMAIL_NOT_CONFIRMED`, `INVALID_PASSWORD`). -/
inductive LoginErr where
  | invalidEmail
  | emailNotConfirmed
  | invalidPassword
deriving DecidableEq, Repr

/-- Route `POST /auth/login` from `src/routes/auth.py`: looks up the user by
email (the form's `username`), rejects absent users, then unconfirmed
users, then wrong passwords — in that source order — and otherwise
issues a fresh access+refresh pair and persists the new refresh token
via `update_token` before returning. -/
def login (db : UserDB) (username password : String) (now : Nat) :
    UserDB × Except LoginErr TokenPair :=
  match get_user_by_email username db with
  | none => (db, .error .invalidEmail)
  | some user =>
      if !user.confirmed then (db, .error .emailNotConfirmed)
      else if !verify_password password user.password then (db, .error .invalidPassword)
      else
        let access := issueToken user.email .access now ACCESS_TTL
        let refresh := issueToken user.email .refresh now REFRESH_TTL
        (update_token user (some refresh) db, .ok ⟨access, refresh⟩)

/-- Failure modes of the `refresh_token` route.  `invalidToken` is the
401 raised inside `decode_refresh_token`; `invalidRefreshToken` is the
401 with detail `INVALID_REFRESH_TOKEN`; `noneAttributeError` models the
unhandled Python `AttributeError` that `user.refresh_token` raises when
`get_user_by_email` returned `None` (the handler has no `None` check) —
it surfaces as an HTTP 500, not a defined authentication failure. -/
inductive RefreshErr where
  | invalidToken
  | invalidRefreshToken
  | noneAttributeError
deriving DecidableEq, Repr

/-- Route `GET /auth/refresh_token` from `src/routes/auth.py`: decodes the
presented bearer token as a refresh token, loads the user by the decoded
email, clears the stored token and fails on mismatch (the cleared token
is committed before the raise), otherwise issues and persists a new
pair. -/
def refresh_route (db : UserDB) (tok : Token) (now : Nat) :
    UserDB × Except RefreshErr TokenPair :=
  match decodeToken tok .refresh now with
  | .error _ => (db, .error .invalidToken)
  | .ok email =>
      match get_user_by_email email db with
      | none => (db, .error .noneAttributeError)
      | some user =>
          if user.refresh_token ≠ some tok then
            (update_token user none db, .error .invalidRefreshToken)
          else
            let access := issueToken email .access now ACCESS_TTL
            let refresh := issueToken email .refresh now REFRESH_TTL
            (update_token user (some refresh) db, .ok ⟨access, refresh⟩)

/-- Failure modes of the `confirmed_email` route: decode failure inside
`get_email_from_token`, and the 400 `EMAIL_VERIFICATION_ERROR` for an
absent user. -/
inductive ConfirmErr where
  | invalidToken
  | emailVerificationError
deriving DecidableEq, Repr

/-- Route `GET /auth/confirmed_email/...` from `src/routes/auth.py`:
decodes the email-verification token, 400s when the subject has no
account, returns "Email already confirmed" as a no-op success when the
account is already confirmed, and otherwise marks it confirmed. -/
def confirmed_email_route (db : UserDB) (tok : Token) (now : Nat) :
    UserDB × Except ConfirmErr String :=
  match decodeToken tok .emailVerify now with
  | .error _ => (db, .error .invalidToken)
  | .ok email =>
      match get_user_by_email email db with
      | none => (db, .error .emailVerificationError)
      | some user =>
          if user.confirmed then (db, .ok "Email already confirmed")
          else (confirmed_email_repo email db, .ok "Email confirmed successfully")

/-- The signup request body (`UserSchema` from `src/schemas/users.py`,
absent from the sources; its fields are those `create_user` consumes:
username, email, password). -/
structure UserSchemaB where
  username : String
  email : String
  password : String
deriving DecidableEq, Repr

/-- The only signup failure: 409 Conflict with detail `ACCOUNT_EXIST`. -/
inductive SignupErr where
  | accountExist
deriving DecidableEq, Repr

/-- Repository function `create_user(body, db)` from `src/repository/users.py`: inserts a new
row built from the body plus the (externally fetched, possibly failed)
Gravatar avatar.  `role` and `confirmed` take their column defaults
(`Role.user`, `False`); `id` is the store's autoincrement value, passed
in as `nextId`. -/
def create_user (body : UserSchemaB) (avatar : Option String) (nextId : Nat)
    (db : UserDB) : UserDB × User :=
  let u : User :=
    { id := nextId, username := body.username, email := body.email,
      password := body.password, avatar := avatar, refresh_token := none,
      role := .user, confirmed := false }
  (db ++ [u], u)

/-- Route `POST /auth/signup` from `src/routes/auth.py`: 409s when a user with
the body's email exists, otherwise hashes the password and creates the
account.  (The confirmation e-mail is queued as a background task; see
`signup_request`.) -/
def signup (db : UserDB) (body : UserSchemaB) (avatar : Option String)
    (nextId : Nat) : UserDB × Except SignupErr User :=
  match get_user_by_email body.email db with
  | some _ => (db, .error .accountExist)
  | none =>
      let hashed := { body with password := get_password_hash body.password }
      let (db', u) := create_user hashed avatar nextId db
      (db', .ok u)

/-! ## Identity cache and avatar route (`src/routes/users.py`) -/

/-- Configured cache TTL, `Settings.CACHE_TTL_SEC` from
`src/conf/config.py` (default 600 seconds). -/
def CACHE_TTL_SEC : Nat := 600

/-- Serialized identity snapshot: `pickle.dumps(user)`.  Pickling is an
injective external serialization; it is modelled as a wrapper around the
snapshot itself. -/
structure Pickled where
  data : User
deriving DecidableEq, Repr

/-- Serialization `pickle.dumps` (modelled as the injective wrapper). -/
def pickle_dumps (u : User) : Pickled := ⟨u⟩

/-- One cache entry: the stored serialized value and its remaining
lifetime (`none` until `expire` sets one). -/
structure CacheEntry where
  value : Pickled
  ttl : Option Nat
deriving DecidableEq, Repr

/-- Modelled from the spec: the Redis-backed Identity Cache
(`auth_service.cache`), a key/value store from email to a serialized
identity snapshot with a lifetime. -/
abbrev Cache := List (String × CacheEntry)

/-- Cache read: last-write-wins lookup by key. -/
def cache_get (c : Cache) (k : String) : Option CacheEntry :=
  (c.find? (fun e => e.1 = k)).map (·.2)

/-- Modelled from the spec: `cache.set(key, value)` — overwrites the
entry for `key` (no lifetime until `expire`). -/
def cache_set (c : Cache) (k : String) (v : Pickled) : Cache :=
  (k, ⟨v, none⟩) :: c.filter (fun e => e.1 ≠ k)

/-- Modelled from the spec: `cache.expire(key, ttl)` — sets the lifetime
of the entry for `key`. -/
def cache_expire (c : Cache) (k : String) (ttl : Nat) : Cache :=
  c.map (fun e => if e.1 = k then (e.1, { e.2 with ttl := some ttl }) else e)

/-- Route `PATCH /users/avatar` from `src/routes/users.py`: uploads the
file to Cloudinary (external; the returned `secure_url` is the `resUrl`
parameter), persists it via `update_avatar_url`, then overwrites the
cache entry for the user's email with the pickled updated user and sets
its lifetime to `CACHE_TTL_SEC`.  `user` is the authenticated current
user. -/
def avatar_patch (db : UserDB) (cache : Cache) (user : User)
    (resUrl : Option String) : UserDB × Cache × Option User :=
  match update_avatar_url user.email resUrl db with
  | (db', none) => (db', cache, none)
  | (db', some u') =>
      let c1 := cache_set cache u'.email (pickle_dumps u')
      let c2 := cache_expire c1 u'.email CACHE_TTL_SEC
      (db', c2, some u')

/-! ## Mail delivery (`src/services/email.py`) and the full signup request -/

/-- Outcome of the external SMTP collaborator for one delivery attempt:
`connectionError` is the `ConnectionErrors` case that `send_email`
catches. -/
inductive MailOutcome where
  | delivered
  | connectionError
deriving DecidableEq, Repr

/-- Function `send_email(email, username, host)` from
`src/services/email.py`: builds the verification token and message and
sends it; a `ConnectionErrors` failure is caught and printed (returned
here as the log), never re-raised. -/
def send_email (outcome : MailOutcome) : List String :=
  match outcome with
  | .delivered => []
  | .connectionError => ["Error: connection"]

/-- Route `POST /auth/signup` including its background mail task: the
HTTP response is computed by `signup`; on success `send_email` is queued
and its outcome (`mail`) affects only the log, never the response or the
store. -/
def signup_request (db : UserDB) (body : UserSchemaB) (avatar : Option String)
    (nextId : Nat) (mail : MailOutcome) :
    (UserDB × Except SignupErr User) × List String :=
  match signup db body avatar nextId with
  | (db', .ok u) => ((db', .ok u), send_email mail)
  | (db', .error e) => ((db', .error e), [])

/-- Route `POST /auth/request_email` (confirmation resend) from
`src/routes/auth.py`: looks up the user by the body's email; an absent
or already-confirmed user gets an informational message with no mail
queued; an existing unconfirmed user gets the confirmation mail queued
as a background task.  The route never raises, and the mail outcome
(`mail`) affects only the log. -/
def request_email (db : UserDB) (email : String) (mail : MailOutcome) :
    (UserDB × String) × List String :=
  match get_user_by_email email db with
  | some user =>
      if user.confirmed then ((db, "Email already confirmed"), [])
      else ((db, "Email confirmation sent successfully"), send_email mail)
  | none => ((db, "User with this email does not exist"), [])

/-! ## Reachable store states -/

/-- The states of the users table reachable from an empty store through
the operations of the application that touch it. -/
inductive Reachable : UserDB → Prop where
  | init : Reachable []
  | signup_step (db : UserDB) (body : UserSchemaB) (avatar : Option String)
      (nextId : Nat) : Reachable db → Reachable (signup db body avatar nextId).1
  | login_step (db : UserDB) (un pw : String) (now : Nat) :
      Reachable db → Reachable (login db un pw now).1
  | refresh_step (db : UserDB) (tok : Token) (now : Nat) :
      Reachable db → Reachable (refresh_route db tok now).1
  | confirm_step (db : UserDB) (tok : Token) (now : Nat) :
      Reachable db → Reachable (confirmed_email_route db tok now).1
  | avatar_step (db : UserDB) (c : Cache) (u : User) (url : Option String) :
      Reachable db → Reachable (avatar_patch db c u url).1

/-! ## Contacts data model and repository (`src/entity/models.py`,
`src/repository/contacts.py`) -/

/-- Calendar date, as handled by Python's `datetime.date`. -/
structure DateD where
  year : Nat
  month : Nat
  day : Nat
deriving DecidableEq, Repr

/-- Gregorian leap-year rule (external `datetime` calendar). -/
def isLeapYear (y : Nat) : Bool :=
  (y % 4 = 0 && y % 100 ≠ 0) || y % 400 = 0

/-- Days in a month of the Gregorian calendar (external `datetime`
calendar). -/
def daysInMonth (y m : Nat) : Nat :=
  if m = 2 then (if isLeapYear y then 29 else 28)
  else if m = 4 || m = 6 || m = 9 || m = 11 then 30
  else 31

/-- Successor day in the Gregorian calendar. -/
def nextDay (d : DateD) : DateD :=
  if d.day < daysInMonth d.year d.month then { d with day := d.day + 1 }
  else if d.month < 12 then { year := d.year, month := d.month + 1, day := 1 }
  else { year := d.year + 1, month := 1, day := 1 }

/-- Date plus a number of days: `today + timedelta(days=n)`. -/
def addDays (d : DateD) : Nat → DateD
  | 0 => d
  | n + 1 => nextDay (addDays d n)

/-- List comprehension `[today + timedelta(days=i) for i in range(1, 8)]`
from `get_birthdays`. -/
def upcoming_dates (today : DateD) : List DateD :=
  (List.range 7).map (fun i => addDays today (i + 1))

/-- ORM model `Contact` from `src/entity/models.py` (timestamps omitted;
never read by the code under study).  Nullable columns are `Option`;
`user_id` is the owner's foreign key, and `filter_by(user=user)`
compares it with the given user's id. -/
structure Contact where
  id : Nat
  first_name : String
  last_name : Option String
  birthday : Option DateD
  email : Option String
  phone : Option String
  notes : Option String
  user_id : Nat
deriving DecidableEq, Repr

/-- The contacts table. -/
abbrev ContactDB := List Contact

/-- SQL `ilike '%q%'`: case-insensitive substring containment. -/
def ilike_contains (s q : String) : Bool :=
  decide (q.toLower.data <:+: s.toLower.data)

/-- SQL `ilike` over a nullable column: `NULL` matches nothing. -/
def opt_ilike (s : Option String) (q : String) : Bool :=
  match s with
  | none => false
  | some v => ilike_contains v q

/-- Repository function `get_contacts(limit, offset, db, user)`:
`select(Contact).filter_by(user=user).offset(offset).limit(limit)`. -/
def get_contacts (limit offset : Nat) (db : ContactDB) (user : User) :
    List Contact :=
  (((db.filter (fun c => c.user_id = user.id)).drop offset).take limit)

/-- Repository function `get_contact(contact_id, db, user)`:
`select(Contact).filter_by(id=contact_id, user=user)` +
`scalar_one_or_none`. -/
def get_contact (contact_id : Nat) (db : ContactDB) (user : User) :
    Option Contact :=
  db.find? (fun c => c.id = contact_id && c.user_id = user.id)

/-- Repository function `get_contact_by_email(email, db, user)`:
`select(Contact).filter_by(email=email, user=user)` +
`scalar_one_or_none`. -/
def get_contact_by_email (email : String) (db : ContactDB) (user : User) :
    Option Contact :=
  db.find? (fun c => c.email = some email && c.user_id = user.id)

/-- Repository function `get_contact_by_phone(phone, db, user)`:
`select(Contact).filter_by(phone=phone, user=user)` +
`scalar_one_or_none`. -/
def get_contact_by_phone (phone : String) (db : ContactDB) (user : User) :
    Option Contact :=
  db.find? (fun c => c.phone = some phone && c.user_id = user.id)

/-- Search condition of `search_contacts`: `or_(first_name ilike,
last_name ilike, email ilike)`. -/
def contact_matches (q : String) (c : Contact) : Bool :=
  ilike_contains c.first_name q || opt_ilike c.last_name q || opt_ilike c.email q

/-- Comparator for `order_by(Contact.first_name)`. -/
def byFirstName (a b : Contact) : Bool :=
  decide (a.first_name ≤ b.first_name)

/-- Repository function `search_contacts(limit, offset, q, db, user)`:
`WHERE (first_name|last_name|email ilike '%q%') AND user_id = user.id
ORDER BY first_name OFFSET offset LIMIT limit` (in SQL, `ORDER BY`
applies before `OFFSET`/`LIMIT` regardless of method-chain order). -/
def search_contacts (limit offset : Nat) (q : String) (db : ContactDB)
    (user : User) : List Contact :=
  ((((db.filter (fun c => contact_matches q c && c.user_id = user.id)).mergeSort
      byFirstName).drop offset).take limit)

/-- Birthday window condition of `get_birthdays`: the contact's birthday
month/day equals the month/day of one of the next seven days. -/
def birthday_upcoming (today : DateD) (c : Contact) : Bool :=
  match c.birthday with
  | none => false
  | some b =>
      (upcoming_dates today).any (fun d => b.month = d.month && b.day = d.day)

/-- Repository function `get_birthdays(db, user)`:
`select(Contact).where(or_(month/day conditions)).filter_by(user=user)`;
`today` is the external clock's `datetime.now().date()`. -/
def get_birthdays (db : ContactDB) (user : User) (today : DateD) :
    List Contact :=
  db.filter (fun c => birthday_upcoming today c && c.user_id = user.id)

/-- Update request body as `update_contact` consumes it (each field
checked against `None` before being applied). -/
structure ContactBody where
  first_name : Option String
  last_name : Option String
  birthday : Option DateD
  phone : Option String
  email : Option String
  notes : Option String
deriving DecidableEq, Repr

/-- Field-by-field in-place update performed by `update_contact` on the
fetched contact (`if body.X is not None: contact.X = body.X`, in source
order). -/
def apply_update (body : ContactBody) (c : Contact) : Contact :=
  let c := match body.first_name with | some v => { c with first_name := v } | none => c
  let c := match body.last_name with | some v => { c with last_name := some v } | none => c
  let c := match body.birthday with | some v => { c with birthday := some v } | none => c
  let c := match body.phone with | some v => { c with phone := some v } | none => c
  let c := match body.email with | some v => { c with email := some v } | none => c
  let c := match body.notes with | some v => { c with notes := some v } | none => c
  c

/-- Replacement of the first row matched by `p` — the commit of an
in-place mutation of the single object `scalar_one_or_none` returned. -/
def replace_first (p : Contact → Bool) (c' : Contact) : ContactDB → ContactDB
  | [] => []
  | x :: xs => if p x then c' :: xs else x :: replace_first p c' xs

/-- The 404 `CONTACT_NOT_FOUND` failure of `update_contact`.  (The 409
`CONTACT_IN_USE` branch guards an external commit failure and is outside
the model, where the store always accepts the commit.) -/
inductive UpdateErr where
  | notFound
deriving DecidableEq, Repr

/-- Repository function `update_contact(contact_id, body, db, user)`:
fetches by `id` and owner, 404s when absent, otherwise applies the
non-`None` body fields to the fetched row, commits and returns it. -/
def update_contact (contact_id : Nat) (body : ContactBody) (db : ContactDB)
    (user : User) : ContactDB × Except UpdateErr Contact :=
  match db.find? (fun c => c.id = contact_id && c.user_id = user.id) with
  | none => (db, .error .notFound)
  | some c =>
      let c' := apply_update body c
      (replace_first (fun x => x.id = contact_id && x.user_id = user.id) c' db,
        .ok c')

/-- Repository function `delete_contact(contact_id, db, user)`: fetches
by `id` and owner; returns `none` when absent, otherwise deletes the
fetched row and returns it. -/
def delete_contact (contact_id : Nat) (db : ContactDB) (user : User) :
    ContactDB × Option Contact :=
  match db.find? (fun c => c.id = contact_id && c.user_id = user.id) with
  | none => (db, none)
  | some c =>
      (db.eraseP (fun x => x.id = contact_id && x.user_id = user.id), some c)

/-! ## Concrete fixtures (used by witnesses and counterexamples) -/

/-- A refresh token for `a@x.com` issued at instant 0. -/
def tokAlice : Token := issueToken "a@x.com" .refresh 0 REFRESH_TTL

/-- A confirmed identity whose stored refresh token is `tokAlice`. -/
def uAlice : User :=
  { id := 1, username := "alice", email := "a@x.com",
    password := get_password_hash "pw", avatar := none,
    refresh_token := some tokAlice, role := .user, confirmed := true }

/-- An unconfirmed identity. -/
def uBob : User :=
  { id := 2, username := "bob", email := "b@x.com",
    password := get_password_hash "pw", avatar := none,
    refresh_token := none, role := .user, confirmed := false }

/-- An email-verification token for `b@x.com`. -/
def tokBobVerify : Token := issueToken "b@x.com" .emailVerify 0 EMAIL_TTL

/-- The account that signing up `("carol", "c@x.com", "pw")` on an empty
store with autoincrement id 3 creates. -/
def uCarol : User :=
  { id := 3, username := "carol", email := "c@x.com",
    password := get_password_hash "pw", avatar := none,
    refresh_token := none, role := .user, confirmed := false }

/-- A contact owned by user 1. -/
def cOwned : Contact :=
  { id := 1, first_name := "Carl", last_name := none, birthday := none,
    email := none, phone := none, notes := none, user_id := 1 }

/-- A contact owned by user 2. -/
def cOther : Contact :=
  { id := 2, first_name := "Dana", last_name := none, birthday := none,
    email := none, phone := none, notes := none, user_id := 2 }

end ContactsApp

deriving instance DecidableEq for Except

namespace ContactsApp

/-! ## Helper lemmas -/

theorem get_user_by_email_map (f : User → User) (hf : ∀ v, (f v).email = v.email)
    (e : String) (db : UserDB) :
    get_user_by_email e (db.map f) = (get_user_by_email e db).map f := by
  induction db with
  | nil => rfl
  | cons x xs ih =>
      simp only [get_user_by_email, List.map_cons, List.find?_cons] at ih ⊢
      by_cases h : x.email = e
      · simp [hf x, h]
      · simp [hf x, h, ih]

theorem get_user_update_token (e : String) (u : User) (tok : Option Token)
    (db : UserDB) :
    get_user_by_email e (update_token u tok db) =
      (get_user_by_email e db).map
        (fun v => if v.email = u.email then { v with refresh_token := tok } else v) := by
  unfold update_token
  apply get_user_by_email_map
  intro v
  by_cases h : v.email = u.email <;> simp [h]

theorem get_user_confirmed_repo (e em : String) (db : UserDB) :
    get_user_by_email e (confirmed_email_repo em db) =
      (get_user_by_email e db).map
        (fun v => if v.email = em then { v with confirmed := true } else v) := by
  unfold confirmed_email_repo
  apply get_user_by_email_map
  intro v
  by_cases h : v.email = em <;> simp [h]

theorem decodeToken_ok_iff (t : Token) (p : Purpose) (now : Nat) (s : String) :
    decodeToken t p now = .ok s ↔ t.purpose = p ∧ now < t.exp ∧ s = t.sub := by
  unfold decodeToken
  by_cases h1 : t.purpose = p
  · by_cases h2 : t.exp ≤ now
    · simp [h1, h2, Nat.not_lt.2 h2]
    · simp [h1, h2, Nat.lt_of_not_le h2, eq_comm]
  · simp [h1]

theorem get_user_by_email_eq (e : String) (db : UserDB) (u : User)
    (h : get_user_by_email e db = some u) : u.email = e := by
  unfold get_user_by_email at h
  simpa using List.find?_some h

theorem login_ok_inv (db db' : UserDB) (un pw : String) (now : Nat)
    (pair : TokenPair) (h : login db un pw now = (db', .ok pair)) :
    ∃ u, get_user_by_email un db = some u ∧ u.confirmed = true ∧
      verify_password pw u.password = true ∧
      pair = ⟨issueToken u.email .access now ACCESS_TTL,
              issueToken u.email .refresh now REFRESH_TTL⟩ ∧
      db' = update_token u (some (issueToken u.email .refresh now REFRESH_TTL)) db := by
  cases hu : get_user_by_email un db with
  | none => simp [login, hu] at h
  | some u =>
      by_cases hc : u.confirmed
      · by_cases hv : verify_password pw u.password
        · simp [login, hu, hc, hv] at h
          obtain ⟨h1, h2, h3⟩ := h
          refine ⟨u, rfl, hc, hv, ?_, h1.symm⟩
          simp_all
        · simp [login, hu, hc, hv] at h
      · simp [login, hu, hc] at h

theorem refresh_route_ok_inv (db db' : UserDB) (tok : Token) (now : Nat)
    (pair : TokenPair) (h : refresh_route db tok now = (db', .ok pair)) :
    tok.purpose = .refresh ∧ now < tok.exp ∧
      ∃ u, get_user_by_email tok.sub db = some u ∧
        u.refresh_token = some tok ∧
        pair = ⟨issueToken tok.sub .access now ACCESS_TTL,
                issueToken tok.sub .refresh now REFRESH_TTL⟩ ∧
        db' = update_token u
          (some (issueToken tok.sub .refresh now REFRESH_TTL)) db := by
  cases hdec : decodeToken tok .refresh now with
  | error e => simp [refresh_route, hdec] at h
  | ok email =>
      obtain ⟨hp, hlt, hsub⟩ := (decodeToken_ok_iff tok .refresh now email).1 hdec
      subst hsub
      cases hu : get_user_by_email tok.sub db with
      | none => simp [refresh_route, hdec, hu] at h
      | some u =>
          by_cases hm : u.refresh_token = some tok
          · simp [refresh_route, hdec, hu, hm] at h
            obtain ⟨h1, h2, h3⟩ := h
            refine ⟨hp, hlt, u, rfl, hm, ?_, h1.symm⟩
            simp_all
          · simp [refresh_route, hdec, hu, hm] at h

theorem confirm_ok_inv (db db' : UserDB) (tok : Token) (now : Nat) (m : String)
    (h : confirmed_email_route db tok now = (db', .ok m)) :
    tok.purpose = .emailVerify ∧ now < tok.exp ∧
      ∃ u, get_user_by_email tok.sub db = some u ∧ u.email = tok.sub ∧
        ((u.confirmed = true ∧ db' = db) ∨
         (u.confirmed = false ∧ db' = confirmed_email_repo tok.sub db)) := by
  cases hdec : decodeToken tok .emailVerify now with
  | error e => simp [confirmed_email_route, hdec] at h
  | ok email =>
      obtain ⟨hp, hlt, hsub⟩ :=
        (decodeToken_ok_iff tok .emailVerify now email).1 hdec
      subst hsub
      cases hu : get_user_by_email tok.sub db with
      | none => simp [confirmed_email_route, hdec, hu] at h
      | some u =>
          have hue := get_user_by_email_eq tok.sub db u hu
          by_cases hc : u.confirmed
          · simp [confirmed_email_route, hdec, hu, hc] at h
            exact ⟨hp, hlt, u, rfl, hue, .inl ⟨hc, h.1.symm⟩⟩
          · simp [confirmed_email_route, hdec, hu, hc] at h
            exact ⟨hp, hlt, u, rfl, hue,
              .inr ⟨by simpa using hc, h.1.symm⟩⟩

/-! ## Claim theorems -/

/-- C2 counterexample: `uBob` is both unconfirmed and presented with a
mismatching password, yet the login route returns `emailNotConfirmed`,
not one of the invalid-credential failures
(`invalidEmail`/`invalidPassword`), because the source checks
`user.confirmed` before verifying the password. -/
theorem login_order_counterexample :
    uBob.confirmed = false ∧
    verify_password "wrong" uBob.password = false ∧
    (login [uBob] "b@x.com" "wrong" 0).2 = .error .emailNotConfirmed ∧
    (login [uBob] "b@x.com" "wrong" 0).2 ≠ .error .invalidPassword ∧
    (login [uBob] "b@x.com" "wrong" 0).2 ≠ .error .invalidEmail := by
  decide

/-- C2 (amended): login outcomes are completely classified: an absent
identity fails with `invalidEmail`; an unconfirmed identity fails with
`emailNotConfirmed` (this check precedes password verification, so it
also fires when the password mismatches); a confirmed identity with a
mismatching password fails with `invalidPassword`; otherwise login
succeeds with a fresh pair, rotating the stored refresh token.  No other
failure is possible. -/
theorem login_classification (db : UserDB) (un pw : String) (now : Nat) :
    (get_user_by_email un db = none →
        login db un pw now = (db, .error .invalidEmail)) ∧
    (∀ u, get_user_by_email un db = some u → u.confirmed = false →
        login db un pw now = (db, .error .emailNotConfirmed)) ∧
    (∀ u, get_user_by_email un db = some u → u.confirmed = true →
        verify_password pw u.password = false →
        login db un pw now = (db, .error .invalidPassword)) ∧
    (∀ u, get_user_by_email un db = some u → u.confirmed = true →
        verify_password pw u.password = true →
        login db un pw now =
          (update_token u (some (issueToken u.email .refresh now REFRESH_TTL)) db,
            .ok ⟨issueToken u.email .access now ACCESS_TTL,
                 issueToken u.email .refresh now REFRESH_TTL⟩)) := by
  refine ⟨?_, ?_, ?_, ?_⟩
  · intro h
    simp [login, h]
  · intro u hu hc
    simp [login, hu, hc]
  · intro u hu hc hv
    simp [login, hu, hc, hv]
  · intro u hu hc hv
    simp [login, hu, hc, hv]

/-- C2 witness: the classification applied to a concrete store — the
confirmed identity `uAlice` with the right password logs in, and the
failure branches fire on `uBob`'s store. -/
theorem login_classification_witness :
    login [uAlice] "a@x.com" "pw" 5 =
      (update_token uAlice
          (some (issueToken uAlice.email .refresh 5 REFRESH_TTL)) [uAlice],
        .ok ⟨issueToken uAlice.email .access 5 ACCESS_TTL,
             issueToken uAlice.email .refresh 5 REFRESH_TTL⟩) ∧
    login [uBob] "b@x.com" "wrong" 0 = ([uBob], .error .emailNotConfirmed) :=
  ⟨(login_classification [uAlice] "a@x.com" "pw" 5).2.2.2 uAlice (by decide)
      (by decide) (by decide),
   (login_classification [uBob] "b@x.com" "wrong" 0).2.1 uBob (by decide)
      (by decide)⟩

/-- C3: the refresh route, evaluated at a syntactically valid, unexpired
refresh token whose subject has no identity row, dereferences the absent
user (`user.refresh_token` on `None`) — an unhandled Python
`AttributeError` surfacing as HTTP 500, not a defined authentication
failure. -/
theorem refresh_absent_user_crash :
    refresh_route [] (issueToken "ghost@x.com" .refresh 0 REFRESH_TTL) 1 =
      ([], .error .noneAttributeError) := by
  decide

/-- C4: after every successful login and every successful refresh, the
identity's stored refresh token (as found in the store state the call
returns) equals the refresh token the call issued and returned, so at
most one refresh token value is valid per identity at any time. -/
theorem stored_refresh_rotated :
    (∀ (db db' : UserDB) (un pw : String) (now : Nat) (pair : TokenPair),
        login db un pw now = (db', .ok pair) →
        ∃ u, get_user_by_email un db' = some u ∧
          u.refresh_token = some pair.refresh_token) ∧
    (∀ (db db' : UserDB) (tok : Token) (now : Nat) (pair : TokenPair),
        refresh_route db tok now = (db', .ok pair) →
        ∃ u, get_user_by_email tok.sub db' = some u ∧
          u.refresh_token = some pair.refresh_token) := by
  constructor
  · intro db db' un pw now pair h
    obtain ⟨u, hu, hc, hv, hpair, hdb⟩ := login_ok_inv db db' un pw now pair h
    subst hdb
    refine ⟨{ u with refresh_token := some (issueToken u.email .refresh now REFRESH_TTL) },
      ?_, by simp [hpair]⟩
    rw [get_user_update_token, hu]
    simp
  · intro db db' tok now pair h
    obtain ⟨hp, hlt, u, hu, hm, hpair, hdb⟩ :=
      refresh_route_ok_inv db db' tok now pair h
    subst hdb
    refine ⟨{ u with refresh_token := some (issueToken tok.sub .refresh now REFRESH_TTL) },
      ?_, by simp [hpair]⟩
    rw [get_user_update_token, hu]
    simp

/-- C4 witness: a successful concrete login stores exactly the refresh
token it returned. -/
theorem stored_refresh_rotated_witness :
    ∃ u, get_user_by_email "a@x.com"
        (update_token uAlice
          (some (issueToken "a@x.com" .refresh 5 REFRESH_TTL)) [uAlice]) =
          some u ∧
      u.refresh_token = some (issueToken "a@x.com" .refresh 5 REFRESH_TTL) :=
  stored_refresh_rotated.1 [uAlice] _ "a@x.com" "pw" 5
    ⟨issueToken "a@x.com" .access 5 ACCESS_TTL,
     issueToken "a@x.com" .refresh 5 REFRESH_TTL⟩ (by decide)

/-- C1: once a first refresh call has rotated the stored refresh token
(the newly issued refresh token differs from the presented one — the
rotation of the claim), a second refresh call presenting the original
pre-rotation token, while it is still unexpired, fails with
`invalidRefreshToken`, clears the identity's stored refresh token
(forcing re-login), and issues no new token pair. -/
theorem refresh_reuse_detected (db db1 : UserDB) (tok0 : Token)
    (now1 now2 : Nat) (pair1 : TokenPair)
    (h1 : refresh_route db tok0 now1 = (db1, .ok pair1))
    (hrot : pair1.refresh_token ≠ tok0)
    (hexp : now2 < tok0.exp) :
    (refresh_route db1 tok0 now2).2 = .error .invalidRefreshToken ∧
      ∃ u, get_user_by_email tok0.sub (refresh_route db1 tok0 now2).1 = some u ∧
        u.refresh_token = none := by
  obtain ⟨hp, hlt1, u, hu, hm, hpair, hdb⟩ :=
    refresh_route_ok_inv db db1 tok0 now1 pair1 h1
  have hrot' : issueToken tok0.sub .refresh now1 REFRESH_TTL ≠ tok0 := by
    intro hcontra
    exact hrot (by rw [hpair, hcontra])
  have hdec2 : decodeToken tok0 .refresh now2 = .ok tok0.sub :=
    (decodeToken_ok_iff tok0 .refresh now2 tok0.sub).2 ⟨hp, hexp, rfl⟩
  have hu1 : get_user_by_email tok0.sub db1 = some { u with refresh_token := some (issueToken tok0.sub .refresh now1 REFRESH_TTL) } := by
    rw [hdb, get_user_update_token, hu]
    simp
  have hmm : ({ u with refresh_token := some (issueToken tok0.sub .refresh now1 REFRESH_TTL) } : User).refresh_token ≠ some tok0 := by
    simpa using hrot'
  constructor
  · simp [refresh_route, hdec2, hu1, hmm]
  · refine ⟨{ u with refresh_token := none }, ?_, rfl⟩
    simp [refresh_route, hdec2, hu1, hmm, get_user_update_token]

/-- C1 witness: the reuse scenario run on a concrete store — after a
first refresh at instant 1, replaying the original token at instant 2
fails and leaves the stored refresh token cleared. -/
theorem refresh_reuse_detected_witness :
    (refresh_route
        (update_token uAlice
          (some (issueToken "a@x.com" .refresh 1 REFRESH_TTL)) [uAlice])
        tokAlice 2).2 = .error .invalidRefreshToken ∧
      ∃ u, get_user_by_email tokAlice.sub
          (refresh_route
            (update_token uAlice
              (some (issueToken "a@x.com" .refresh 1 REFRESH_TTL)) [uAlice])
            tokAlice 2).1 = some u ∧
        u.refresh_token = none :=
  refresh_reuse_detected [uAlice] _ tokAlice 1 2
    ⟨issueToken "a@x.com" .access 1 ACCESS_TTL,
     issueToken "a@x.com" .refresh 1 REFRESH_TTL⟩
    (by decide) (by decide) (by decide)

/-- C5: `confirmed_email` is idempotent — when a first call on a valid
token succeeds, a second call on the same (still unexpired) token is a
no-op success: it changes nothing, reports "Email already confirmed",
and the identity stays confirmed. -/
theorem confirm_email_idempotent (db db1 : UserDB) (tok : Token)
    (now1 now2 : Nat) (m1 : String)
    (h1 : confirmed_email_route db tok now1 = (db1, .ok m1))
    (hexp : now2 < tok.exp) :
    confirmed_email_route db1 tok now2 = (db1, .ok "Email already confirmed") ∧
      ∃ u, get_user_by_email tok.sub db1 = some u ∧ u.confirmed = true := by
  obtain ⟨hp, hlt1, u, hu, hue, hcase⟩ := confirm_ok_inv db db1 tok now1 m1 h1
  have hdec2 : decodeToken tok .emailVerify now2 = .ok tok.sub :=
    (decodeToken_ok_iff tok .emailVerify now2 tok.sub).2 ⟨hp, hexp, rfl⟩
  have key : ∃ u1, get_user_by_email tok.sub db1 = some u1 ∧
      u1.confirmed = true := by
    rcases hcase with ⟨hc, rfl⟩ | ⟨hc, rfl⟩
    · exact ⟨u, hu, hc⟩
    · refine ⟨{ u with confirmed := true }, ?_, rfl⟩
      rw [get_user_confirmed_repo, hu]
      simp [hue]
  obtain ⟨u1, hu1, hc1⟩ := key
  refine ⟨?_, u1, hu1, hc1⟩
  simp [confirmed_email_route, hdec2, hu1, hc1]

/-- C5 witness: confirming `uBob` at instant 1 and replaying the same
verification token at instant 2 — the second call is a no-op success. -/
theorem confirm_email_idempotent_witness :
    confirmed_email_route (confirmed_email_repo "b@x.com" [uBob])
        tokBobVerify 2 =
      (confirmed_email_repo "b@x.com" [uBob], .ok "Email already confirmed") ∧
      ∃ u, get_user_by_email tokBobVerify.sub
          (confirmed_email_repo "b@x.com" [uBob]) = some u ∧
        u.confirmed = true :=
  confirm_email_idempotent [uBob] _ tokBobVerify 1 2
    "Email confirmed successfully" (by decide) (by decide)

/-- C6: cross-purpose rejection — a token issued with purpose `access`
is rejected with a scope error when decoded expecting `refresh`, and
symmetrically, at every subject, lifetime and decode instant. -/
theorem cross_purpose_rejected (sub : String) (ttl now now2 : Nat) :
    decodeToken (issueToken sub .access now ttl) .refresh now2 =
        .error .invalidScope ∧
    decodeToken (issueToken sub .refresh now ttl) .access now2 =
        .error .invalidScope := by
  constructor <;> simp [decodeToken, issueToken]

theorem emails_map (f : User → User) (hf : ∀ v, (f v).email = v.email)
    (db : UserDB) : (db.map f).map User.email = db.map User.email := by
  rw [List.map_map]
  apply List.map_congr_left
  intro a _
  simp [Function.comp, hf a]

theorem update_token_emails (u : User) (tok : Option Token) (db : UserDB) :
    (update_token u tok db).map User.email = db.map User.email := by
  unfold update_token
  apply emails_map
  intro v
  by_cases h : v.email = u.email <;> simp [h]

theorem confirmed_repo_emails (e : String) (db : UserDB) :
    (confirmed_email_repo e db).map User.email = db.map User.email := by
  unfold confirmed_email_repo
  apply emails_map
  intro v
  by_cases h : v.email = e <;> simp [h]

theorem login_preserves_emails (db : UserDB) (un pw : String) (now : Nat) :
    ((login db un pw now).1).map User.email = db.map User.email := by
  cases hu : get_user_by_email un db with
  | none => simp [login, hu]
  | some u =>
      by_cases hc : u.confirmed
      · by_cases hv : verify_password pw u.password
        · simp [login, hu, hc, hv, update_token_emails]
        · simp [login, hu, hc, hv]
      · simp [login, hu, hc]

theorem refresh_preserves_emails (db : UserDB) (tok : Token) (now : Nat) :
    ((refresh_route db tok now).1).map User.email = db.map User.email := by
  cases hdec : decodeToken tok .refresh now with
  | error e => simp [refresh_route, hdec]
  | ok email =>
      cases hu : get_user_by_email email db with
      | none => simp [refresh_route, hdec, hu]
      | some u =>
          by_cases hm : u.refresh_token = some tok
          · simp [refresh_route, hdec, hu, hm, update_token_emails]
          · simp [refresh_route, hdec, hu, hm, update_token_emails]

theorem confirm_preserves_emails (db : UserDB) (tok : Token) (now : Nat) :
    ((confirmed_email_route db tok now).1).map User.email = db.map User.email := by
  cases hdec : decodeToken tok .emailVerify now with
  | error e => simp [confirmed_email_route, hdec]
  | ok email =>
      cases hu : get_user_by_email email db with
      | none => simp [confirmed_email_route, hdec, hu]
      | some u =>
          by_cases hc : u.confirmed
          · simp [confirmed_email_route, hdec, hu, hc]
          · simp [confirmed_email_route, hdec, hu, hc, confirmed_repo_emails]

theorem avatar_preserves_emails (db : UserDB) (c : Cache) (u : User)
    (url : Option String) :
    ((avatar_patch db c u url).1).map User.email = db.map User.email := by
  cases hu : get_user_by_email u.email db with
  | none => simp [avatar_patch, update_avatar_url, hu]
  | some v =>
      have hmap : ((db.map
          (fun w => if w.email = u.email then { w with avatar := url } else w)).map
          User.email) = db.map User.email := by
        apply emails_map
        intro w
        by_cases h : w.email = u.email <;> simp [h]
      simp [avatar_patch, update_avatar_url, hu, hmap]

/-- C7: identity email is globally unique — a signup presenting the email
of an existing identity fails with the 409 account-exists conflict and
leaves the store untouched, and consequently in every reachable store
state no two identities share an email. -/
theorem email_unique :
    (∀ (db : UserDB) (body : UserSchemaB) (avatar : Option String)
        (nextId : Nat) (u : User),
        get_user_by_email body.email db = some u →
        signup db body avatar nextId = (db, .error .accountExist)) ∧
    (∀ db : UserDB, Reachable db → (db.map User.email).Nodup) := by
  constructor
  · intro db body avatar nextId u hu
    simp [signup, hu]
  · intro db h
    induction h with
    | init => simp
    | signup_step db body avatar nextId _ ih =>
        cases hu : get_user_by_email body.email db with
        | some u => simpa [signup, hu] using ih
        | none =>
            have hnotin : body.email ∉ db.map User.email := by
              have hnone : ∀ x ∈ db, ¬ x.email = body.email := by
                simpa [get_user_by_email, List.find?_eq_none] using hu
              intro hmem
              obtain ⟨v, hv, hveq⟩ := List.mem_map.1 hmem
              exact hnone v hv hveq
            simp only [signup, hu, create_user]
            rw [List.map_append]
            simp [List.nodup_append, ih, hnotin]
    | login_step db un pw now _ ih =>
        rw [login_preserves_emails]
        exact ih
    | refresh_step db tok now _ ih =>
        rw [refresh_preserves_emails]
        exact ih
    | confirm_step db tok now _ ih =>
        rw [confirm_preserves_emails]
        exact ih
    | avatar_step db c u url _ ih =>
        rw [avatar_preserves_emails]
        exact ih

/-- C7 witness: the conflict branch applied to a concrete store
(signing up again with `uAlice`'s email), and the invariant at a
concrete reachable state. -/
theorem email_unique_witness :
    signup [uAlice] ⟨"mallory", "a@x.com", "xx"⟩ none 7 =
      ([uAlice], .error .accountExist) ∧
    (([] : UserDB).map User.email).Nodup :=
  ⟨email_unique.1 [uAlice] ⟨"mallory", "a@x.com", "xx"⟩ none 7 uAlice (by decide),
   email_unique.2 [] .init⟩

/-- C8: the avatar route overwrites the Identity Cache entry keyed by the
identity's email with the updated serialized identity snapshot (the
persisted user carrying the new avatar URL) and sets its lifetime to the
configured TTL, whose default is 600 seconds. -/
theorem avatar_cache_overwrite (db : UserDB) (cache : Cache) (user : User)
    (resUrl : Option String) (u0 : User)
    (hu : get_user_by_email user.email db = some u0) :
    (avatar_patch db cache user resUrl).2.2 = some { u0 with avatar := resUrl } ∧
      cache_get (avatar_patch db cache user resUrl).2.1 user.email =
        some ⟨pickle_dumps { u0 with avatar := resUrl }, some CACHE_TTL_SEC⟩ ∧
      CACHE_TTL_SEC = 600 := by
  have hue : u0.email = user.email := get_user_by_email_eq _ _ _ hu
  refine ⟨?_, ?_, rfl⟩
  · simp [avatar_patch, update_avatar_url, hu]
  · simp [avatar_patch, update_avatar_url, hu, cache_get, cache_set,
      cache_expire, hue]

/-- C8 witness: updating `uAlice`'s avatar on a concrete store leaves the
cache entry for her email holding the updated pickled snapshot with a
600-second lifetime. -/
theorem avatar_cache_overwrite_witness :
    (avatar_patch [uAlice] [] uAlice (some "https://cdn/img")).2.2 =
        some { uAlice with avatar := some "https://cdn/img" } ∧
      cache_get (avatar_patch [uAlice] [] uAlice (some "https://cdn/img")).2.1
          uAlice.email =
        some ⟨pickle_dumps { uAlice with avatar := some "https://cdn/img" },
              some CACHE_TTL_SEC⟩ ∧
      CACHE_TTL_SEC = 600 :=
  avatar_cache_overwrite [uAlice] [] uAlice (some "https://cdn/img") uAlice
    (by decide)

/-- C9: a mail-delivery failure during signup or confirmation-resend is
logged and does not fail the HTTP request.  For signup: the response and
resulting store state are the same for every mail outcome, a connection
failure after a successful signup is only logged, and the account
created by a successful signup exists in the store with
`confirmed = false`.  For the resend route: the response and store state
are likewise the same for every mail outcome, the store is never
changed, and a connection failure on the queued mail is only logged. -/
theorem mail_failure_nonfatal (db : UserDB) (body : UserSchemaB)
    (avatar : Option String) (nextId : Nat) (email : String)
    (mail : MailOutcome) :
    (signup_request db body avatar nextId mail).1 = signup db body avatar nextId ∧
    (∀ u, (signup db body avatar nextId).2 = .ok u →
        (signup_request db body avatar nextId .connectionError).2 =
          ["Error: connection"]) ∧
    (∀ u, (signup db body avatar nextId).2 = .ok u →
        u.confirmed = false ∧
          get_user_by_email body.email (signup db body avatar nextId).1 = some u) ∧
    (request_email db email mail).1 = (request_email db email .delivered).1 ∧
    (request_email db email mail).1.1 = db ∧
    (∀ u, get_user_by_email email db = some u → u.confirmed = false →
        (request_email db email .connectionError).2 = ["Error: connection"]) := by
  have hsignup :
      (signup_request db body avatar nextId mail).1 =
          signup db body avatar nextId ∧
      (∀ u, (signup db body avatar nextId).2 = .ok u →
          (signup_request db body avatar nextId .connectionError).2 =
            ["Error: connection"]) ∧
      (∀ u, (signup db body avatar nextId).2 = .ok u →
          u.confirmed = false ∧
            get_user_by_email body.email (signup db body avatar nextId).1 =
              some u) := by
    cases hu : get_user_by_email body.email db with
    | some v =>
        refine ⟨?_, ?_, ?_⟩
        · simp [signup_request, signup, hu]
        · intro u h
          simp [signup, hu] at h
        · intro u h
          simp [signup, hu] at h
    | none =>
        refine ⟨?_, ?_, ?_⟩
        · simp [signup_request, signup, hu, create_user]
        · intro u h
          simp [signup_request, signup, hu, create_user, send_email]
        · intro u h
          simp [signup, hu, create_user] at h
          constructor
          · rw [← h]
          · unfold get_user_by_email
            simp only [signup, hu, create_user]
            rw [List.find?_append]
            have h1 : (db.find? (fun w => w.email = body.email)) = none := by
              simpa [get_user_by_email] using hu
            rw [h1]
            simp [← h]
  refine ⟨hsignup.1, hsignup.2.1, hsignup.2.2, ?_, ?_, ?_⟩
  · cases hu : get_user_by_email email db with
    | none => simp [request_email, hu]
    | some u =>
        by_cases hc : u.confirmed <;> simp [request_email, hu, hc]
  · cases hu : get_user_by_email email db with
    | none => simp [request_email, hu]
    | some u =>
        by_cases hc : u.confirmed <;> simp [request_email, hu, hc]
  · intro u hu hc
    simp [request_email, hu, hc, send_email]

/-- C9 witness: a concrete signup whose confirmation mail fails with a
connection error still creates the unconfirmed account and returns it,
and a resend for the unconfirmed `uBob` whose mail fails with a
connection error only logs the failure. -/
theorem mail_failure_nonfatal_witness :
    (signup_request [] ⟨"carol", "c@x.com", "pw"⟩ none 3 .connectionError).1 =
        signup [] ⟨"carol", "c@x.com", "pw"⟩ none 3 ∧
      uCarol.confirmed = false ∧
      get_user_by_email "c@x.com"
          (signup [] ⟨"carol", "c@x.com", "pw"⟩ none 3).1 = some uCarol ∧
      (request_email [uBob] "b@x.com" .connectionError).2 =
        ["Error: connection"] :=
  have h1 := mail_failure_nonfatal [] ⟨"carol", "c@x.com", "pw"⟩ none 3
    "nobody@x.com" .connectionError
  have h2 := mail_failure_nonfatal [uBob] ⟨"zed", "z@x.com", "p"⟩ none 9
    "b@x.com" .connectionError
  ⟨h1.1, (h1.2.2.1 uCarol (by decide)).1, (h1.2.2.1 uCarol (by decide)).2,
   h2.2.2.2.2.2 uBob (by decide) (by decide)⟩

theorem apply_update_user_id (b : ContactBody) (c : Contact) :
    (apply_update b c).user_id = c.user_id := by
  unfold apply_update
  cases b.first_name <;> cases b.last_name <;> cases b.birthday <;>
    cases b.phone <;> cases b.email <;> cases b.notes <;> rfl

theorem replace_first_filter (p q : Contact → Bool) (c' : Contact)
    (db : ContactDB) (hpq : ∀ x, p x = true → q x = false)
    (hc' : q c' = false) :
    (replace_first p c' db).filter q = db.filter q := by
  induction db with
  | nil => rfl
  | cons x xs ih =>
      by_cases hx : p x
      · simp [replace_first, hx, List.filter_cons, hpq x hx, hc']
      · simp [replace_first, hx, List.filter_cons, ih]

theorem eraseP_filter (p q : Contact → Bool) (db : ContactDB)
    (hpq : ∀ x, p x = true → q x = false) :
    (db.eraseP p).filter q = db.filter q := by
  induction db with
  | nil => rfl
  | cons x xs ih =>
      by_cases hx : p x
      · simp [List.eraseP_cons, hx, List.filter_cons, hpq x hx]
      · simp [List.eraseP_cons, hx, List.filter_cons, ih]

/-- C10: per-user contact isolation — every contact a repository
operation returns belongs to the invoking user (`user_id = u.id`), and
the mutating operations (`update_contact`, `delete_contact`) leave the
contacts of every other user exactly as they were.  A contact owned by a
different user is therefore never returned, modified or deleted. -/
theorem contact_isolation :
    (∀ (cid : Nat) (db : ContactDB) (u : User) (c : Contact),
        get_contact cid db u = some c → c.user_id = u.id) ∧
    (∀ (limit offset : Nat) (db : ContactDB) (u : User) (c : Contact),
        c ∈ get_contacts limit offset db u → c.user_id = u.id) ∧
    (∀ (limit offset : Nat) (q : String) (db : ContactDB) (u : User)
        (c : Contact),
        c ∈ search_contacts limit offset q db u → c.user_id = u.id) ∧
    (∀ (db : ContactDB) (u : User) (today : DateD) (c : Contact),
        c ∈ get_birthdays db u today → c.user_id = u.id) ∧
    (∀ (e : String) (db : ContactDB) (u : User) (c : Contact),
        get_contact_by_email e db u = some c → c.user_id = u.id) ∧
    (∀ (ph : String) (db : ContactDB) (u : User) (c : Contact),
        get_contact_by_phone ph db u = some c → c.user_id = u.id) ∧
    (∀ (cid : Nat) (body : ContactBody) (db : ContactDB) (u : User),
        (∀ c, (update_contact cid body db u).2 = .ok c → c.user_id = u.id) ∧
        (update_contact cid body db u).1.filter (fun c => c.user_id ≠ u.id) =
          db.filter (fun c => c.user_id ≠ u.id)) ∧
    (∀ (cid : Nat) (db : ContactDB) (u : User),
        (∀ c, (delete_contact cid db u).2 = some c → c.user_id = u.id) ∧
        (delete_contact cid db u).1.filter (fun c => c.user_id ≠ u.id) =
          db.filter (fun c => c.user_id ≠ u.id)) := by
  refine ⟨?_, ?_, ?_, ?_, ?_, ?_, ?_, ?_⟩
  · intro cid db u c h
    have := List.find?_some h
    simp at this
    exact this.2
  · intro limit offset db u c h
    have h1 := List.take_subset _ _ h
    have h2 := List.drop_subset _ _ h1
    have h3 := (List.mem_filter.1 h2).2
    simpa using h3
  · intro limit offset q db u c h
    have h1 := List.take_subset _ _ h
    have h2 := List.drop_subset _ _ h1
    have h3 := List.mem_mergeSort.1 h2
    have h4 := (List.mem_filter.1 h3).2
    simp at h4
    exact h4.2
  · intro db u today c h
    have h1 := (List.mem_filter.1 h).2
    simp at h1
    exact h1.2
  · intro e db u c h
    have := List.find?_some h
    simp at this
    exact this.2
  · intro ph db u c h
    have := List.find?_some h
    simp at this
    exact this.2
  · intro cid body db u
    cases hf : db.find? (fun c => c.id = cid && c.user_id = u.id) with
    | none =>
        constructor
        · intro c h
          simp [update_contact, hf] at h
        · simp [update_contact, hf]
    | some c0 =>
        have hc0 := List.find?_some hf
        simp at hc0
        constructor
        · intro c h
          simp [update_contact, hf] at h
          rw [← h, apply_update_user_id]
          exact hc0.2
        · simp only [update_contact, hf]
          apply replace_first_filter
          · intro x hx
            simp at hx
            simp [hx.2]
          · simp [apply_update_user_id, hc0.2]
  · intro cid db u
    cases hf : db.find? (fun c => c.id = cid && c.user_id = u.id) with
    | none =>
        constructor
        · intro c h
          simp [delete_contact, hf] at h
        · simp [delete_contact, hf]
    | some c0 =>
        have hc0 := List.find?_some hf
        simp at hc0
        constructor
        · intro c h
          simp [delete_contact, hf] at h
          rw [← h]
          exact hc0.2
        · simp only [delete_contact, hf]
          apply eraseP_filter
          intro x hx
          simp at hx
          simp [hx.2]

/-- C10 witness: on a concrete store holding one contact of user 1 and
one of user 2, fetching user 1's own contact succeeds and shows it is
hers, fetching user 2's contact as user 1 fails, and deleting user 2's
contact as user 1 leaves the other user's contacts untouched. -/
theorem contact_isolation_witness :
    cOwned.user_id = uAlice.id ∧
      get_contact 2 [cOwned, cOther] uAlice = none ∧
      (delete_contact 2 [cOwned, cOther] uAlice).1.filter
          (fun c => c.user_id ≠ uAlice.id) =
        ([cOwned, cOther] : ContactDB).filter (fun c => c.user_id ≠ uAlice.id) :=
  ⟨contact_isolation.1 1 [cOwned] uAlice cOwned (by decide),
   by decide,
   (contact_isolation.2.2.2.2.2.2.2 2 [cOwned, cOther] uAlice).2⟩

end ContactsApp

